import Mathlib

/-!
Verification of the NINJA-TRADER decision engine (`app/` python sources).

Shallow embedding conventions:
* Python floats are modelled as `ℚ` (all constants in the code are decimal
  literals, and every claim is about exact arithmetic on such values).
* `datetime` values are modelled as rational seconds since an arbitrary
  epoch; UTC dates are modelled as integers (day numbers).
* Python dictionaries keyed by strings are modelled as association lists.
* Pandas series are modelled as `List ℚ`; a NaN entry of a derived series
  is modelled as `none : Option ℚ`.  The vectorised pandas pipeline in
  `indicators.rsi` is rendered pointwise (value at index `i`), which is
  semantically the same computation.
* Reason strings built with f-strings are modelled by an inductive
  `Reason` type, one constructor per distinct message, carrying the
  interpolated numeric payloads.
-/

namespace NinjaTrader

/-! ## Association-list helpers (python `dict` semantics) -/

def lookup {α : Type} (l : List (String × α)) (k : String) : Option α :=
  match l with
  | [] => none
  | (k2, v) :: rest => if k2 = k then some v else lookup rest k

def lookupD {α : Type} (l : List (String × α)) (k : String) (d : α) : α :=
  (lookup l k).getD d

def eraseKey {α : Type} (l : List (String × α)) (k : String) : List (String × α) :=
  match l with
  | [] => []
  | (k2, v) :: rest => if k2 = k then eraseKey rest k else (k2, v) :: eraseKey rest k

def insertKV {α : Type} (l : List (String × α)) (k : String) (v : α) : List (String × α) :=
  (k, v) :: eraseKey l k

theorem lookup_insertKV_self {α : Type} (l : List (String × α)) (k : String) (v : α) :
    lookup (insertKV l k v) k = some v := by
  simp [insertKV, lookup]

theorem lookup_eraseKey_ne {α : Type} (l : List (String × α)) (k k2 : String) (h : k2 ≠ k) :
    lookup (eraseKey l k) k2 = lookup l k2 := by
  induction l with
  | nil => rfl
  | cons p rest ih =>
    obtain ⟨k3, v⟩ := p
    by_cases hk : k3 = k
    · subst hk
      simp [eraseKey, lookup, Ne.symm h, ih]
    · by_cases hk2 : k3 = k2
      · subst hk2
        simp [eraseKey, lookup, hk]
      · simp [eraseKey, lookup, hk, hk2, ih]

theorem lookup_insertKV_ne {α : Type} (l : List (String × α)) (k k2 : String) (v : α)
    (h : k2 ≠ k) : lookup (insertKV l k v) k2 = lookup l k2 := by
  simp [insertKV, lookup, Ne.symm h, lookup_eraseKey_ne l k k2 h]

/-! ## Indicator library: `indicators.rsi` (pandas pipeline, pointwise)

Python source (`app/indicators.py`):
```
def rsi(series, period=14):
    delta = series.diff()
    gain = (delta.where(delta > 0, 0.0)).rolling(period).mean()
    loss = (-delta.where(delta < 0, 0.0)).rolling(period).mean()
    rs = gain / loss.replace(0.0, np.nan)
    rsi_val = 100.0 - (100.0 / (1.0 + rs))
    return rsi_val.fillna(50.0)
```
`diff` puts NaN at index 0; `where` turns that NaN into `0.0` (the NaN
comparison is falsy); `rolling(period).mean()` is NaN until a full window
of `period` samples exists; `replace(0.0, nan)` makes a zero loss average
NaN; NaN propagates through `/` and the affine map; `fillna(50.0)`
replaces every NaN with 50.
-/

/-- Value of `series.diff()` at index `i` (NaN at index 0 is `none`). -/
def diffAt (s : List ℚ) (i : ℕ) : Option ℚ :=
  if i = 0 then none else some (s.getD i 0 - s.getD (i - 1) 0)

/-- Value of `delta.where(delta > 0, 0.0)` at index `i`. -/
def gainAt (s : List ℚ) (i : ℕ) : ℚ :=
  match diffAt s i with
  | some x => if 0 < x then x else 0
  | none => 0

/-- Value of `-delta.where(delta < 0, 0.0)` at index `i`. -/
def lossAt (s : List ℚ) (i : ℕ) : ℚ :=
  match diffAt s i with
  | some x => if x < 0 then -x else 0
  | none => 0

/-- `x.rolling(period).mean()` at index `i` for the pointwise series `f`:
defined only once a full window of `period` samples is available. -/
def rollMeanAt (f : ℕ → ℚ) (period i : ℕ) : Option ℚ :=
  if 1 ≤ period ∧ period ≤ i + 1 then
    some (((((List.range (i + 1)).drop (i + 1 - period)).map f).sum) / (period : ℚ))
  else none

/-- The rolling average gain at index `i`. -/
def gainAvgAt (s : List ℚ) (period i : ℕ) : Option ℚ :=
  rollMeanAt (gainAt s) period i

/-- The rolling average loss at index `i` (before the `replace(0.0, nan)`). -/
def lossAvgAt (s : List ℚ) (period i : ℕ) : Option ℚ :=
  rollMeanAt (lossAt s) period i

/-- `rs = gain / loss.replace(0.0, np.nan)` at index `i`. -/
def rsAt (s : List ℚ) (period i : ℕ) : Option ℚ :=
  match gainAvgAt s period i,
    (match lossAvgAt s period i with
     | some x => if x = 0 then none else some x
     | none => none) with
  | some g, some l => some (g / l)
  | _, _ => none

/-- `(100.0 - 100.0 / (1.0 + rs)).fillna(50.0)` at index `i`. -/
def rsiAt (s : List ℚ) (period i : ℕ) : ℚ :=
  match rsAt s period i with
  | some r => 100 - 100 / (1 + r)
  | none => 50

/-- `indicators.rsi`: the full output series. -/
def rsi (s : List ℚ) (period : ℕ) : List ℚ :=
  (List.range s.length).map (rsiAt s period)

/-! ## Prepared rows and the PAMM scorer (`app/strategy_logic.py`)

A `Row` is one row of a prepared dataframe: the OHLCV bar together with
the derived indicator columns added by `Strategy._prep`.  `openPx` is the
python column `open` (renamed: `open` is a Lean keyword). -/

structure Row where
  openPx : ℚ := 0
  high : ℚ := 0
  low : ℚ := 0
  close : ℚ := 0
  volume : ℚ := 0
  ema9 : ℚ := 0
  ema21 : ℚ := 0
  ema50 : ℚ := 0
  rsi14 : ℚ := 0
  macdh : ℚ := 0
  ADX : ℚ := 0
  vwap : ℚ := 0
  relvol : ℚ := 0
  deriving DecidableEq

/-- Default row used for the (guarded) `iloc[-1]` / `iloc[-2]` accesses. -/
def row0 : Row := {}

/-- `df.iloc[-1]` on a prepared frame (guarded by length checks). -/
def lastRow (f : List Row) : Row := f.getLastD row0

/-- `df.iloc[-2]` on a prepared frame (guarded by length checks). -/
def prevRow (f : List Row) : Row := f.getD (f.length - 2) row0

/-- Per-timeframe direction in `_score_pamm`: `1 if e9 >= e21 else -1`. -/
def tfDirection (r : Row) : Int :=
  if r.ema21 ≤ r.ema9 then 1 else -1

/-- Timeframe agreement count of `_score_pamm` (1m, 15m, 30m against 5m). -/
def agreements (row5 row1 row15 row30 : Row) : ℕ :=
  (if tfDirection row1 = tfDirection row5 then 1 else 0) +
  (if tfDirection row15 = tfDirection row5 then 1 else 0) +
  (if tfDirection row30 = tfDirection row5 then 1 else 0)

/-- Momentum contribution of one timeframe in `_score_pamm`:
`max(0, min(10, (abs(rsi14 - 50) / 20) * 10))` plus 10 if `abs(macdh) > 0`. -/
def momentumPts (r : Row) : ℚ :=
  max 0 (min 10 ((|r.rsi14 - 50| / 20) * 10)) + (if 0 < |r.macdh| then 10 else 0)

/-- ADX contribution of `_score_pamm`: `max(0, min(10, (adx / 25) * 10))`.
The python `np.isfinite(adx_val)` guard is always true in this model
(`ℚ` has no NaN/inf; `_prep` ends the ADX column with `fillna(0.0)`). -/
def adxBonus (r : Row) : ℚ :=
  max 0 (min 10 ((r.ADX / 25) * 10))

/-- `Strategy._score_pamm` on the latest rows of the four timeframes:
returns `(score, dir5)`. -/
def score_pamm (row5 row1 row15 row30 : Row) : ℚ × Int :=
  ((agreements row5 row1 row15 row30 : ℚ) * 10 +
     (momentumPts row1 + momentumPts row5 + momentumPts row15 + momentumPts row30) +
     adxBonus row5,
   tfDirection row5)

/-! ## Candle-pattern predicates (`app/indicators.py`) -/

/-- `detect_bullish_rejection`. -/
def detect_bullish_rejection (candle : Row) : Bool :=
  let o := candle.openPx
  let h := candle.high
  let l := candle.low
  let c := candle.close
  let body := |c - o|
  let lower_wick := min o c - l
  let total_range := h - l
  if total_range < 1 / 100000000 then false
  else if lower_wick < body * 2 then false
  else if (c - l) / total_range < 67 / 100 then false
  else true

/-- `detect_bearish_rejection`. -/
def detect_bearish_rejection (candle : Row) : Bool :=
  let o := candle.openPx
  let h := candle.high
  let l := candle.low
  let c := candle.close
  let body := |c - o|
  let upper_wick := h - max o c
  let total_range := h - l
  if total_range < 1 / 100000000 then false
  else if upper_wick < body * 2 then false
  else if 33 / 100 < (c - l) / total_range then false
  else true

/-- `detect_bullish_engulfing`. -/
def detect_bullish_engulfing (prev curr : Row) : Bool :=
  if prev.openPx ≤ prev.close then false
  else if curr.close ≤ curr.openPx then false
  else if prev.close ≤ curr.openPx ∨ curr.close ≤ prev.openPx then false
  else true

/-- `detect_bearish_engulfing`. -/
def detect_bearish_engulfing (prev curr : Row) : Bool :=
  if prev.close ≤ prev.openPx then false
  else if curr.openPx ≤ curr.close then false
  else if curr.openPx ≤ prev.close ∨ prev.openPx ≤ curr.close then false
  else true

/-- `detect_hammer`. -/
def detect_hammer (candle : Row) : Bool :=
  let o := candle.openPx
  let h := candle.high
  let l := candle.low
  let c := candle.close
  let body := |c - o|
  let lower_wick := min o c - l
  let upper_wick := h - max o c
  if body < 1 / 100000000 then false
  else if lower_wick < body * 2 then false
  else if body * (3 / 10) < upper_wick then false
  else true

/-- `detect_inverted_hammer`. -/
def detect_inverted_hammer (candle : Row) : Bool :=
  let o := candle.openPx
  let h := candle.high
  let l := candle.low
  let c := candle.close
  let body := |c - o|
  let lower_wick := min o c - l
  let upper_wick := h - max o c
  if body < 1 / 100000000 then false
  else if upper_wick < body * 2 then false
  else if body * (3 / 10) < lower_wick then false
  else true

/-! ## Signals, reasons, the strategy filter chain -/

/-- Side of an entry `Signal` (python strings "buy" / "sell" / "flat"). -/
inductive SigSide where
  | buy
  | sell
  | flat
  deriving DecidableEq

/-- Trailing-ladder tier label (python strings "L1" / "L2" / "L3"). -/
inductive Lvl where
  | L1
  | L2
  | L3
  deriving DecidableEq

set_option maxHeartbeats 3200000

/-- One constructor per distinct message produced by the code; numeric
payloads are the values interpolated into the python f-string. -/
inductive Reason where
  | insufficientData
  | regimeDisabled
  | regimeInsufficient
  | regimeAligned (dir : Int)
  | mixedRegime
  | pammConflictsRegime
  | pammOutsideRange (score mn mx : ℚ)
  | adxWeak (v mn : ℚ)
  | adxStrong (v : ℚ)
  | lowVolume (v mn : ℚ)
  | volumeSpike (v mx : ℚ)
  | volumeOK (v : ℚ)
  | rsiTooLowForLong (v : ℚ)
  | rsiTooHighForShort (v : ℚ)
  | belowVWAP
  | aboveVWAP
  | macdDisabled
  | macd5BearishBlockingLong
  | macd5BullishBlockingShort
  | macd15StronglyBearish
  | macd15StronglyBullish
  | macdAligned
  | macdAcceptable
  | candleDisabled
  | candleInsufficient
  | bullishRejection
  | bullishEngulfing
  | hammer
  | noBullishPattern
  | bearishRejection
  | bearishEngulfing
  | invertedHammer
  | noBearishPattern
  | allFiltersPassed (pamm : ℚ) (regime adxR volR : Reason) (rsi5 : ℚ)
      (macdR patternR : Reason)
  | insufficientMultiTfCandles
  | kill3Losses
  | killAuto
  | cooldown (remaining : Int)
  | killSingleLoss (pnl : ℚ)
  | stopHitRender (price stop : ℚ)
  | earlyExitPammWeak (pamm : ℚ) (bars : Int)
  | earlyExitPammFail (pamm : ℚ)
  | reversalClose (pamm : ℚ)
  | noTrailYet (pnl : ℚ)
  | trailSkipSmallMove (lvl : Lvl) (move : ℚ)
  | trailSkipHugeMove (lvl : Lvl) (move : ℚ)
  | trailLadder (lvl : Lvl) (offset pnl : ℚ)
  | hold
  deriving DecidableEq

/-- `strategy_logic.Signal`. -/
structure Signal where
  side : SigSide
  reason : Reason
  deriving DecidableEq

/-- `strategy_logic.Strategy` constructor parameters, with the python
default values. -/
structure Strategy where
  pamm_min : ℚ
  pamm_max : ℚ
  adx_min : ℚ := 22
  rel_vol_min : ℚ := 6 / 5
  rel_vol_max : ℚ := 2
  rsi_long_min : ℚ := 52
  rsi_short_max : ℚ := 48
  use_vwap : Bool := true
  use_regime_filter : Bool := true
  use_candle_patterns : Bool := true
  use_multi_tf_macd : Bool := true
  atr_stop_mult : ℚ := 2
  atr_target_mult : ℚ := 3
  deriving DecidableEq

/-- `Strategy._check_regime_filter` on prepared frames (only the lengths
and the last rows of `f5` / `f30` are consulted). -/
def check_regime_filter (strat : Strategy) (f5 f30 : List Row) : Bool × Int × Reason :=
  if strat.use_regime_filter = false then (true, 0, .regimeDisabled)
  else if f5.length < 50 ∨ f30.length < 50 then (false, 0, .regimeInsufficient)
  else
    let r5 := lastRow f5
    let r30 := lastRow f30
    let dir5 : Int := if r5.ema50 < r5.ema9 then 1 else -1
    let dir30 : Int := if r30.ema50 < r30.ema9 then 1 else -1
    if dir5 = dir30 then (true, dir5, .regimeAligned dir5)
    else (false, 0, .mixedRegime)

/-- `Strategy._check_volume_confirmation` (the `np.isfinite` guard is
always true over `ℚ`). -/
def check_volume_confirmation (strat : Strategy) (row5 : Row) : Bool × Reason :=
  if row5.relvol < strat.rel_vol_min then (false, .lowVolume row5.relvol strat.rel_vol_min)
  else if strat.rel_vol_max < row5.relvol then (false, .volumeSpike row5.relvol strat.rel_vol_max)
  else (true, .volumeOK row5.relvol)

/-- `Strategy._check_adx_gate` (the `np.isfinite` guard is always true
over `ℚ`). -/
def check_adx_gate (strat : Strategy) (row5 : Row) : Bool × Reason :=
  if row5.ADX < strat.adx_min then (false, .adxWeak row5.ADX strat.adx_min)
  else (true, .adxStrong row5.ADX)

/-- `Strategy._check_multi_tf_macd` on the last rows of `f5`/`f15`/`f30`. -/
def check_multi_tf_macd (strat : Strategy) (f5 f15 f30 : List Row) (direction : Int) :
    Bool × Reason :=
  if strat.use_multi_tf_macd = false then (true, .macdDisabled)
  else
    let macd_5 := (lastRow f5).macdh
    let macd_15 := (lastRow f15).macdh
    let macd_30 := (lastRow f30).macdh
    if direction = 1 ∧ macd_5 ≤ 0 then (false, .macd5BearishBlockingLong)
    else if direction = -1 ∧ 0 ≤ macd_5 then (false, .macd5BullishBlockingShort)
    else if direction = 1 ∧ macd_15 < -50 then (false, .macd15StronglyBearish)
    else if direction = -1 ∧ 50 < macd_15 then (false, .macd15StronglyBullish)
    else if (direction = 1 ∧ 0 < macd_30) ∨ (direction = -1 ∧ macd_30 < 0) then
      (true, .macdAligned)
    else (true, .macdAcceptable)

/-- `Strategy._check_candle_pattern` on the last two rows of the frame. -/
def check_candle_pattern (strat : Strategy) (df : List Row) (direction : Int) :
    Bool × Reason :=
  if strat.use_candle_patterns = false then (true, .candleDisabled)
  else if df.length < 2 then (false, .candleInsufficient)
  else
    let last_candle := lastRow df
    let prev_candle := prevRow df
    if direction = 1 then
      if detect_bullish_rejection last_candle then (true, .bullishRejection)
      else if detect_bullish_engulfing prev_candle last_candle then (true, .bullishEngulfing)
      else if detect_hammer last_candle then (true, .hammer)
      else (false, .noBullishPattern)
    else
      if detect_bearish_rejection last_candle then (true, .bearishRejection)
      else if detect_bearish_engulfing prev_candle last_candle then (true, .bearishEngulfing)
      else if detect_inverted_hammer last_candle then (true, .invertedHammer)
      else (false, .noBearishPattern)

/-- `Strategy.decide` over already-prepared frames (the `_prep` indicator
computation is upstream of this model; `decide` only reads frame lengths
and the last one or two rows of each frame). -/
def strategyDecide (strat : Strategy) (f1 f5 f15 f30 : List Row) : Signal :=
  if f1.length < 50 ∨ f5.length < 50 ∨ f15.length < 50 ∨ f30.length < 50 then
    ⟨.flat, .insufficientData⟩
  else
    let row5 := lastRow f5
    let regime := check_regime_filter strat f5 f30
    if regime.1 = false then ⟨.flat, regime.2.2⟩
    else
      let pamm := score_pamm row5 (lastRow f1) (lastRow f15) (lastRow f30)
      let pamm_score := pamm.1
      let dir5 := pamm.2
      if strat.use_regime_filter = true ∧ regime.2.1 ≠ 0 ∧ dir5 ≠ regime.2.1 then
        ⟨.flat, .pammConflictsRegime⟩
      else if pamm_score < strat.pamm_min ∨ strat.pamm_max < pamm_score then
        ⟨.flat, .pammOutsideRange pamm_score strat.pamm_min strat.pamm_max⟩
      else
        let adxR := check_adx_gate strat row5
        if adxR.1 = false then ⟨.flat, adxR.2⟩
        else
          let volR := check_volume_confirmation strat row5
          if volR.1 = false then ⟨.flat, volR.2⟩
          else
            let rsi5 := row5.rsi14
            let use_long := dir5 = 1
            if use_long ∧ rsi5 < strat.rsi_long_min then
              ⟨.flat, .rsiTooLowForLong rsi5⟩
            else if ¬use_long ∧ strat.rsi_short_max < rsi5 then
              ⟨.flat, .rsiTooHighForShort rsi5⟩
            else if strat.use_vwap = true ∧ use_long ∧
                ¬(row5.vwap ≤ row5.close ∧ row5.vwap ≤ row5.ema9) then
              ⟨.flat, .belowVWAP⟩
            else if strat.use_vwap = true ∧ ¬use_long ∧
                ¬(row5.close ≤ row5.vwap ∧ row5.ema9 ≤ row5.vwap) then
              ⟨.flat, .aboveVWAP⟩
            else
              let macdR := check_multi_tf_macd strat f5 f15 f30 dir5
              if macdR.1 = false then ⟨.flat, macdR.2⟩
              else
                let patternR := check_candle_pattern strat f5 dir5
                if patternR.1 = false then ⟨.flat, patternR.2⟩
                else
                  ⟨if dir5 = 1 then .buy else .sell,
                   .allFiltersPassed pamm_score regime.2.2 adxR.2 volR.2 rsi5 macdR.2
                     patternR.2⟩

/-! ## Configuration (`app/config.py`)

Every setting is an environment variable with a hard-coded default; the
`Config` structure's field defaults are exactly those python defaults, so
`defaultConfig` is the configuration of a deployment that sets no
environment variables. -/

/-- Python boolean env parsing: `value.lower() in ("1","true","yes")`.
The `.lower()` call is omitted here because every default value supplied
in `config.py` is already lowercase (it is the identity on the inputs
this model ever applies the parser to). -/
def parse_bool_env (s : String) : Bool :=
  s = "1" ∨ s = "true" ∨ s = "yes"

/-- `config.USE_REGIME_FILTER` with its default environment value
(`os.getenv("USE_REGIME_FILTER", "false")`). -/
def USE_REGIME_FILTER : Bool := parse_bool_env "false"

/-- The configuration settings consumed by the runtime manager and the
strategy, with the python env-var defaults. -/
structure Config where
  PAMM_MIN : ℚ := 60
  PAMM_MAX : ℚ := 130
  ATR_STOP_MULT : ℚ := 3 / 2
  ATR_TARGET_MULT : ℚ := 3
  USE_VWAP : Bool := parse_bool_env "false"
  USE_REGIME_FILTER : Bool := parse_bool_env "false"
  USE_CANDLE_PATTERNS : Bool := parse_bool_env "false"
  USE_MULTI_TF_MACD : Bool := parse_bool_env "false"
  COOLDOWN_SECONDS : ℚ := 0
  RUNTIME_MANAGER_ENABLED : Bool := parse_bool_env "true"
  EARLY_EXIT_PAMM : ℚ := 70
  REVERSAL_PAMM_THRESHOLD : ℚ := 60
  MIN_STOP_MOVE_PTS : ℚ := 1 / 4
  MAX_STOP_TIGHTEN_PER_POLL_PTS : ℚ := 2000
  ENABLE_AUTO_KILL_SWITCH : Bool := parse_bool_env "true"
  MAX_DAILY_LOSS_USD : ℚ := 15 / 2
  POINT_VALUE_USD : ℚ := 5
  deriving DecidableEq

def defaultConfig : Config := {}

/-- `runtime_manager._make_strategy` (thresholds from config, the rest
from the `Strategy.__init__` defaults). -/
def make_strategy (cfg : Config) : Strategy :=
  { pamm_min := cfg.PAMM_MIN
    pamm_max := cfg.PAMM_MAX
    use_vwap := cfg.USE_VWAP
    use_regime_filter := cfg.USE_REGIME_FILTER
    use_candle_patterns := cfg.USE_CANDLE_PATTERNS
    use_multi_tf_macd := cfg.USE_MULTI_TF_MACD
    atr_stop_mult := cfg.ATR_STOP_MULT
    atr_target_mult := cfg.ATR_TARGET_MULT }

/-! ## Position / risk state store (`app/state.py`)

Times are rational seconds; the current UTC date is an integer day
number.  Each `StateStore` method takes the current state together with
`today` (the value of `datetime.now(timezone.utc).date()` during the
call) and returns its result and the updated state. -/

/-- Position side, python strings "long" / "short". -/
inductive Side where
  | long
  | short
  deriving DecidableEq

/-- `state.PositionState` (python dataclass defaults).  The `exit_price`
and `exit_time_utc` attributes are created dynamically by the `/fills`
handler, hence optional here.  `openFlag` is the python field `open`
(renamed: `open` is a Lean keyword). -/
structure PositionState where
  side : Option Side := none
  entry_price : ℚ := 0
  stop_price : ℚ := 0
  qty : ℚ := 0
  openFlag : Bool := false
  entry_time_utc : Option ℚ := none
  initial_stop : ℚ := 0
  last_stop_update_utc : Option ℚ := none
  last_sl_time_utc : Option ℚ := none
  exit_price : Option ℚ := none
  exit_time_utc : Option ℚ := none
  deriving DecidableEq

def defaultPos : PositionState := {}

/-- `state.BotState` (fields irrelevant to the claims kept for
faithfulness, with their python defaults). -/
structure BotState where
  mode : String := "PAPER"
  kill_switch : Bool := false
  positions : List (String × PositionState) := []
  daily_realized_pnl_by_machine : List (String × ℚ) := []
  current_day_utc : Int := 0
  kill_switch_triggered_by_machine : List (String × Bool) := []
  consecutive_losses_by_machine : List (String × Int) := []
  deriving DecidableEq

/-- `StateStore._day_rollover_if_needed`. -/
def day_rollover_if_needed (today : Int) (st : BotState) : BotState :=
  if today ≠ st.current_day_utc then
    { st with
      current_day_utc := today
      daily_realized_pnl_by_machine := []
      kill_switch_triggered_by_machine := []
      consecutive_losses_by_machine := [] }
  else st

/-- `StateStore.get`: returns the state snapshot.  Note that, unlike all
the per-machine accessors below, it does NOT call
`_day_rollover_if_needed`. -/
def store_get (st : BotState) : BotState := st

/-- Python key `f"{machine_id}:{symbol}"`. -/
def posKey (machine_id symbol : String) : String :=
  machine_id ++ ":" ++ symbol

/-- `StateStore.get_position` (lazily creates the default position). -/
def store_get_position (st : BotState) (machine_id symbol : String) (today : Int) :
    PositionState × BotState :=
  let st := day_rollover_if_needed today st
  match lookup st.positions (posKey machine_id symbol) with
  | some p => (p, st)
  | none =>
    (defaultPos,
     { st with positions := insertKV st.positions (posKey machine_id symbol) defaultPos })

/-- `StateStore.set_position`. -/
def store_set_position (st : BotState) (machine_id symbol : String) (pos : PositionState)
    (today : Int) : BotState :=
  let st := day_rollover_if_needed today st
  { st with positions := insertKV st.positions (posKey machine_id symbol) pos }

/-- `StateStore.add_realized_pnl`. -/
def store_add_realized_pnl (st : BotState) (machine_id : String) (pnl_usd : ℚ)
    (today : Int) : BotState :=
  let st := day_rollover_if_needed today st
  { st with
    daily_realized_pnl_by_machine :=
      insertKV st.daily_realized_pnl_by_machine machine_id
        (lookupD st.daily_realized_pnl_by_machine machine_id 0 + pnl_usd) }

/-- `StateStore.get_realized_pnl`. -/
def store_get_realized_pnl (st : BotState) (machine_id : String) (today : Int) :
    ℚ × BotState :=
  let st := day_rollover_if_needed today st
  (lookupD st.daily_realized_pnl_by_machine machine_id 0, st)

/-- `StateStore.set_kill_triggered`. -/
def store_set_kill_triggered (st : BotState) (machine_id : String) (enabled : Bool)
    (today : Int) : BotState :=
  let st := day_rollover_if_needed today st
  { st with
    kill_switch_triggered_by_machine :=
      insertKV st.kill_switch_triggered_by_machine machine_id enabled }

/-- `StateStore.is_kill_triggered`. -/
def store_is_kill_triggered (st : BotState) (machine_id : String) (today : Int) :
    Bool × BotState :=
  let st := day_rollover_if_needed today st
  (lookupD st.kill_switch_triggered_by_machine machine_id false, st)

/-- `StateStore.increment_consecutive_losses`. -/
def store_increment_consecutive_losses (st : BotState) (machine_id : String)
    (today : Int) : BotState :=
  let st := day_rollover_if_needed today st
  { st with
    consecutive_losses_by_machine :=
      insertKV st.consecutive_losses_by_machine machine_id
        (lookupD st.consecutive_losses_by_machine machine_id 0 + 1) }

/-- `StateStore.reset_consecutive_losses`. -/
def store_reset_consecutive_losses (st : BotState) (machine_id : String)
    (today : Int) : BotState :=
  let st := day_rollover_if_needed today st
  { st with
    consecutive_losses_by_machine :=
      insertKV st.consecutive_losses_by_machine machine_id 0 }

/-- `StateStore.get_consecutive_losses`. -/
def store_get_consecutive_losses (st : BotState) (machine_id : String) (today : Int) :
    Int × BotState :=
  let st := day_rollover_if_needed today st
  (lookupD st.consecutive_losses_by_machine machine_id 0, st)

/-- The position stored for a (machine, symbol) key, defaulting to the
freshly-created `PositionState` exactly as `get_position` would. -/
def storedPos (st : BotState) (machine_id symbol : String) : PositionState :=
  lookupD st.positions (posKey machine_id symbol) defaultPos

/-! ## Runtime manager (`app/runtime_manager.py`) -/

/-- Runtime decision signal, python strings "LONG" / "SHORT" / "FLAT". -/
inductive RtSignal where
  | LONG
  | SHORT
  | FLAT
  deriving DecidableEq

/-- `runtime_manager.RuntimeDecision` (`meta` dictionary omitted; every
claim-relevant `meta` value is recoverable from the reason payloads and
the state). -/
structure RuntimeDecision where
  signal : RtSignal
  stop_price : ℚ
  reason : Reason
  deriving DecidableEq

/-- `runtime_manager._position_dir`:
`1 if (pos.side or "").lower() == "long" else -1`. -/
def position_dir (pos : PositionState) : Int :=
  if pos.side = some Side.long then 1 else -1

/-- `runtime_manager._pnl_points`. -/
def pnl_points (pos : PositionState) (price : ℚ) : ℚ :=
  if pos.openFlag = false ∨ pos.entry_price ≤ 0 then 0
  else (price - pos.entry_price) * (position_dir pos : ℚ)

/-- `runtime_manager._calc_trailing_stop`: returns
`(new_stop?, ladder_reason)`. -/
def calc_trailing_stop (cfg : Config) (pos : PositionState) (price : ℚ) :
    Option ℚ × Reason :=
  let pnl_pts := pnl_points pos price
  if pnl_pts < 150 then (none, .noTrailYet pnl_pts)
  else
    let ol : ℚ × Lvl :=
      if 150 ≤ pnl_pts ∧ pnl_pts < 200 then (100, .L1)
      else if 200 ≤ pnl_pts ∧ pnl_pts < 300 then (100, .L2)
      else (150, .L3)
    let offset := ol.1
    let lvl := ol.2
    let d := position_dir pos
    let candidate := price - offset * (d : ℚ)
    let candidate :=
      if 0 < pos.stop_price then
        if d = 1 then max candidate pos.stop_price else min candidate pos.stop_price
      else candidate
    if 0 < pos.stop_price then
      let move := |candidate - pos.stop_price|
      if move < cfg.MIN_STOP_MOVE_PTS then (none, .trailSkipSmallMove lvl move)
      else if cfg.MAX_STOP_TIGHTEN_PER_POLL_PTS < move then
        (none, .trailSkipHugeMove lvl move)
      else (some candidate, .trailLadder lvl offset pnl_pts)
    else (some candidate, .trailLadder lvl offset pnl_pts)

/-- The frame-derived inputs of one `decide_with_runtime` call.  Each
field is the value of a deterministic function of the loaded frames that
the python code computes: `sufficient` is
`not any(len(frames[k]) < 50 ...)`, `price` is
`float(frames["df5"].iloc[-1]["close"])`, `sigSide`/`sigReason` are
`strat.decide(frames)`, `pamm_now` is `compute_pamm_now(strat, frames)`,
and `current_dir` is `_current_dir_from_frames(frames)`. -/
structure FrameInputs where
  sufficient : Bool
  price : ℚ
  sigSide : SigSide
  sigReason : Reason
  pamm_now : ℚ
  current_dir : Int
  deriving DecidableEq

/-- The open-position management block of `decide_with_runtime` (the
numbered checks 0-4 after `# Position management`).  Returns the
decision, the position to write back via `set_position` (if any), and
whether `set_kill_triggered(machine_id, True)` is called. -/
def manage_open (cfg : Config) (pos : PositionState) (price pamm_now : ℚ)
    (current_dir : Int) (now : ℚ) : RuntimeDecision × Option PositionState × Bool :=
  let pnl_pts := pnl_points pos price
  let pnl_usd_est := pnl_pts * cfg.POINT_VALUE_USD * (if pos.qty = 0 then 1 else pos.qty)
  -- 0) catastrophic single-trade loss (hard-coded -$5.00)
  if pnl_usd_est ≤ -5 then
    (⟨.FLAT, 0, .killSingleLoss pnl_usd_est⟩, some { pos with openFlag := false }, true)
  else
    let d := position_dir pos
    -- 1) stop-hit detection (does NOT record `last_sl_time_utc`)
    if 0 < pos.stop_price ∧
        ((d = 1 ∧ price ≤ pos.stop_price) ∨ (d = -1 ∧ pos.stop_price ≤ price)) then
      (⟨.FLAT, 0, .stopHitRender price pos.stop_price⟩,
       some { pos with openFlag := false }, false)
    else
      -- 2) PAMM-based early exit, only before +150 pts
      let bars_in_trade : Int :=
        match pos.entry_time_utc with
        | some t => ⌊(now - t) / 300⌋
        | none => 0
      if pnl_pts < 150 ∧ 4 ≤ bars_in_trade ∧ pamm_now < 90 then
        (⟨.FLAT, 0, .earlyExitPammWeak pamm_now bars_in_trade⟩,
         some { pos with openFlag := false }, false)
      else if pnl_pts < 150 ∧ pamm_now < 70 then
        (⟨.FLAT, 0, .earlyExitPammFail pamm_now⟩,
         some { pos with openFlag := false }, false)
      -- 3) reversal detection
      else if current_dir ≠ d ∧ cfg.REVERSAL_PAMM_THRESHOLD ≤ pamm_now then
        (⟨.FLAT, 0, .reversalClose pamm_now⟩, some { pos with openFlag := false }, false)
      else
        -- 4) trailing stop ladder
        let tr := calc_trailing_stop cfg pos price
        match tr.1 with
        | some new_stop =>
          if new_stop ≠ pos.stop_price then
            (⟨if d = 1 then .LONG else .SHORT, new_stop, tr.2⟩,
             some { pos with stop_price := new_stop, last_stop_update_utc := some now },
             false)
          else (⟨if d = 1 then .LONG else .SHORT, pos.stop_price, .hold⟩, none, false)
        | none => (⟨if d = 1 then .LONG else .SHORT, pos.stop_price, .hold⟩, none, false)

/-- `runtime_manager.decide_with_runtime` (state-transformer form).  The
loaded frames enter only through `fi : FrameInputs`; `now` is the time of
the call and `today` its UTC date. -/
def decide_with_runtime (cfg : Config) (st : BotState) (machine_id symbol : String)
    (fi : FrameInputs) (now : ℚ) (today : Int) : RuntimeDecision × BotState :=
  if cfg.RUNTIME_MANAGER_ENABLED = false then
    -- entry-only fallback (no state writes)
    if fi.sufficient = false then (⟨.FLAT, 0, .insufficientMultiTfCandles⟩, st)
    else if fi.sigSide = .flat then (⟨.FLAT, 0, fi.sigReason⟩, st)
    else
      let direction : Int := if fi.sigSide = .buy then 1 else -1
      let stop_loss := fi.price + 50 * (-(direction : ℚ))
      (⟨if fi.sigSide = .buy then .LONG else .SHORT, stop_loss, fi.sigReason⟩, st)
  else if fi.sufficient = false then (⟨.FLAT, 0, .insufficientMultiTfCandles⟩, st)
  else
    let pst := store_get_position st machine_id symbol today
    let pos := pst.1
    -- automatic kill switch on daily realized P&L
    let st2 :=
      if cfg.ENABLE_AUTO_KILL_SWITCH = true then
        let r := store_get_realized_pnl pst.2 machine_id today
        if r.1 ≤ -|cfg.MAX_DAILY_LOSS_USD| then
          store_set_kill_triggered r.2 machine_id true today
        else r.2
      else pst.2
    -- consecutive-losses kill switch
    let cl := store_get_consecutive_losses st2 machine_id today
    if 3 ≤ cl.1 then
      (⟨.FLAT, 0, .kill3Losses⟩, store_set_kill_triggered cl.2 machine_id true today)
    else
      let kt := store_is_kill_triggered cl.2 machine_id today
      if kt.1 = true ∨ st.kill_switch = true then (⟨.FLAT, 0, .killAuto⟩, kt.2)
      else
        -- cooldown after stop hit
        let cooldownHit : Option Int :=
          if 0 < cfg.COOLDOWN_SECONDS then
            match pos.last_sl_time_utc with
            | some t =>
              if now - t < cfg.COOLDOWN_SECONDS then
                some ⌊cfg.COOLDOWN_SECONDS - (now - t)⌋
              else none
            | none => none
          else none
        match cooldownHit with
        | some remaining => (⟨.FLAT, 0, .cooldown remaining⟩, kt.2)
        | none =>
          let price := fi.price
          if pos.openFlag = false then
            -- entry engine
            if fi.sigSide = .flat then (⟨.FLAT, 0, fi.sigReason⟩, kt.2)
            else
              let direction : Int := if fi.sigSide = .buy then 1 else -1
              let stop_loss := price + 50 * (-(direction : ℚ))
              let pos' : PositionState :=
                { pos with
                  side := some (if fi.sigSide = .buy then Side.long else Side.short)
                  entry_price := price
                  stop_price := stop_loss
                  initial_stop := stop_loss
                  qty := if pos.qty = 0 then 1 else pos.qty
                  entry_time_utc := some now
                  openFlag := false
                  last_stop_update_utc := some now }
              (⟨if fi.sigSide = .buy then .LONG else .SHORT, stop_loss, fi.sigReason⟩,
               store_set_position kt.2 machine_id symbol pos' today)
          else
            let mo := manage_open cfg pos price fi.pamm_now fi.current_dir now
            let stW :=
              match mo.2.1 with
              | some p => store_set_position kt.2 machine_id symbol p today
              | none => kt.2
            let stK :=
              if mo.2.2 = true then store_set_kill_triggered stW machine_id true today
              else stW
            (mo.1, stK)

/-- The state effect of one poll cycle: inputs are the frame-derived
values together with the call time and date. -/
def runtime_state_step (cfg : Config) (machine_id symbol : String) (st : BotState)
    (inp : FrameInputs × ℚ × Int) : BotState :=
  (decide_with_runtime cfg st machine_id symbol inp.1 inp.2.1 inp.2.2).2

/-- Iterated poll cycles. -/
def run_cycles (cfg : Config) (machine_id symbol : String) (st : BotState)
    (inputs : List (FrameInputs × ℚ × Int)) : BotState :=
  inputs.foldl (runtime_state_step cfg machine_id symbol) st

/-! ## Fill notifications (`app/routes.py`, `/fills` handler) -/

/-- Fill side, python strings "BUY" / anything-else (treated as sell). -/
inductive FillSide where
  | BUY
  | SELL
  deriving DecidableEq

/-- The state effect of the `/fills` route (the `db.log_fill` side effect
is external).  `now` is `datetime.now(timezone.utc)` during the call. -/
def fills (st : BotState) (machineId symbol : String) (fside : FillSide) (qty price : ℚ)
    (now : ℚ) (today : Int) : BotState :=
  let pst := store_get_position st machineId symbol today
  let pos := pst.1
  let side : Side := if fside = .BUY then .long else .short
  if pos.openFlag = false then
    -- entry
    let pos' : PositionState :=
      { pos with
        side := some side
        entry_price := price
        qty := qty
        entry_time_utc := some now
        openFlag := true }
    store_set_position pst.2 machineId symbol pos' today
  else
    -- potential exit or add-on: opposite side closes
    match pos.side with
    | some s =>
      if side ≠ s then
        let pos' : PositionState :=
          { pos with openFlag := false, exit_price := some price, exit_time_utc := some now }
        store_set_position pst.2 machineId symbol pos' today
      else pst.2
    | none => pst.2

/-! ## Shared helper lemmas -/

theorem momentumPts_nonneg (r : Row) : 0 ≤ momentumPts r := by
  unfold momentumPts
  have h1 : (0 : ℚ) ≤ max 0 (min 10 ((|r.rsi14 - 50| / 20) * 10)) := le_max_left _ _
  have h2 : (0 : ℚ) ≤ (if 0 < |r.macdh| then (10 : ℚ) else 0) := by positivity
  linarith

theorem momentumPts_le (r : Row) : momentumPts r ≤ 20 := by
  unfold momentumPts
  have h1 : max 0 (min 10 ((|r.rsi14 - 50| / 20) * 10)) ≤ 10 :=
    max_le (by norm_num) (min_le_left _ _)
  have h2 : (if 0 < |r.macdh| then (10 : ℚ) else 0) ≤ 10 := by split <;> norm_num
  linarith

theorem adxBonus_nonneg (r : Row) : 0 ≤ adxBonus r := le_max_left _ _

theorem adxBonus_le (r : Row) : adxBonus r ≤ 10 :=
  max_le (by norm_num) (min_le_left _ _)

theorem agreements_le_three (row5 row1 row15 row30 : Row) :
    agreements row5 row1 row15 row30 ≤ 3 := by
  unfold agreements
  split_ifs <;> simp

theorem momentumPts_congr (a b : Row) (h1 : a.rsi14 = b.rsi14) (h2 : a.macdh = b.macdh) :
    momentumPts a = momentumPts b := by
  unfold momentumPts
  rw [h1, h2]

/-! ## Claim theorems -/

/-- Claim C10: for every choice of the four input rows, the PAMM score
returned by `_score_pamm` lies in `[0, 120]` (at most 30 agreement
points, at most 20 momentum points per timeframe, at most 10 ADX
points), and the returned direction is `+1` exactly when the 5m row has
`EMA9 ≥ EMA21`, else `-1`. -/
theorem c10_pamm_score_bounds (row5 row1 row15 row30 : Row) :
    0 ≤ (score_pamm row5 row1 row15 row30).1 ∧
    (score_pamm row5 row1 row15 row30).1 ≤ 120 ∧
    (score_pamm row5 row1 row15 row30).2 = (if row5.ema21 ≤ row5.ema9 then 1 else -1) := by
  have hagN : (0 : ℚ) ≤ (agreements row5 row1 row15 row30 : ℚ) := by positivity
  have hag : ((agreements row5 row1 row15 row30 : ℚ)) ≤ 3 := by
    exact_mod_cast agreements_le_three row5 row1 row15 row30
  have m1 := momentumPts_nonneg row1
  have m5 := momentumPts_nonneg row5
  have m15 := momentumPts_nonneg row15
  have m30 := momentumPts_nonneg row30
  have u1 := momentumPts_le row1
  have u5 := momentumPts_le row5
  have u15 := momentumPts_le row15
  have u30 := momentumPts_le row30
  have a0 := adxBonus_nonneg row5
  have a1 := adxBonus_le row5
  refine ⟨?_, ?_, rfl⟩
  · simp only [score_pamm]
    nlinarith
  · simp only [score_pamm]
    nlinarith

/-- Claim C7: holding the four timeframes' RSI and MACD-histogram values
and the 5m ADX fixed, the PAMM score differs between two calls by exactly
10 points per unit change of the agreement count; in particular it is
monotonically non-decreasing in the agreement count. -/
theorem c7_pamm_agreement_monotone (a5 a1 a15 a30 b5 b1 b15 b30 : Row)
    (hr1 : a1.rsi14 = b1.rsi14) (hr5 : a5.rsi14 = b5.rsi14)
    (hr15 : a15.rsi14 = b15.rsi14) (hr30 : a30.rsi14 = b30.rsi14)
    (hm1 : a1.macdh = b1.macdh) (hm5 : a5.macdh = b5.macdh)
    (hm15 : a15.macdh = b15.macdh) (hm30 : a30.macdh = b30.macdh)
    (ha : a5.ADX = b5.ADX) :
    (score_pamm b5 b1 b15 b30).1 - (score_pamm a5 a1 a15 a30).1 =
      10 * ((agreements b5 b1 b15 b30 : ℚ) - (agreements a5 a1 a15 a30 : ℚ)) ∧
    (agreements a5 a1 a15 a30 ≤ agreements b5 b1 b15 b30 →
      (score_pamm a5 a1 a15 a30).1 ≤ (score_pamm b5 b1 b15 b30).1) := by
  have e1 := momentumPts_congr a1 b1 hr1 hm1
  have e5 := momentumPts_congr a5 b5 hr5 hm5
  have e15 := momentumPts_congr a15 b15 hr15 hm15
  have e30 := momentumPts_congr a30 b30 hr30 hm30
  have ea : adxBonus a5 = adxBonus b5 := by unfold adxBonus; rw [ha]
  constructor
  · simp only [score_pamm]
    rw [e1, e5, e15, e30, ea]
    ring
  · intro hle
    have hle' : ((agreements a5 a1 a15 a30 : ℚ)) ≤ (agreements b5 b1 b15 b30 : ℚ) := by
      exact_mod_cast hle
    simp only [score_pamm]
    rw [e1, e5, e15, e30, ea]
    nlinarith

/-- A row whose EMA9/EMA21 direction is up (all other columns zero). -/
def c7_up : Row := { ema9 := 1 }

/-- A row whose EMA9/EMA21 direction is down (all other columns zero). -/
def c7_down : Row := { ema21 := 1 }

theorem c7_pamm_agreement_monotone_witness :
    (score_pamm c7_up c7_up c7_up c7_up).1 - (score_pamm c7_up c7_down c7_down c7_down).1 =
      10 * ((agreements c7_up c7_up c7_up c7_up : ℚ) -
        (agreements c7_up c7_down c7_down c7_down : ℚ)) ∧
    (score_pamm c7_up c7_down c7_down c7_down).1 ≤ (score_pamm c7_up c7_up c7_up c7_up).1 :=
  ⟨(c7_pamm_agreement_monotone c7_up c7_down c7_down c7_down c7_up c7_up c7_up c7_up
      rfl rfl rfl rfl rfl rfl rfl rfl rfl).1,
   (c7_pamm_agreement_monotone c7_up c7_down c7_down c7_down c7_up c7_up c7_up c7_up
      rfl rfl rfl rfl rfl rfl rfl rfl rfl).2 (by decide)⟩

/-- Claim C8: the `rsi` pipeline is total — it returns a full-length
series for every input, including series shorter than the period (the
python vectorised pipeline raises on no input) — and at every index where
the rolling average loss over the window is zero, or undefined for lack
of history, the returned RSI value is exactly 50. -/
theorem c8_rsi_total_and_neutral (s : List ℚ) (period : ℕ) :
    (rsi s period).length = s.length ∧
    ∀ i, i < s.length →
      (lossAvgAt s period i = none ∨ lossAvgAt s period i = some 0) →
      (rsi s period)[i]? = some 50 := by
  constructor
  · simp [rsi]
  · intro i hi h
    have hmap : (rsi s period)[i]? = some (rsiAt s period i) := by
      simp [rsi, List.getElem?_map, List.getElem?_range, hi]
    rw [hmap]
    have hrs : rsAt s period i = none := by
      unfold rsAt
      rcases h with h | h <;> rw [h] <;> rcases gainAvgAt s period i <;> simp
    unfold rsiAt
    rw [hrs]

theorem c8_rsi_total_and_neutral_witness :
    (1 < ([1, 2, 3] : List ℚ).length ∧ lossAvgAt ([1, 2, 3] : List ℚ) 14 1 = none) ∧
    (rsi ([1, 2, 3] : List ℚ) 14)[1]? = some 50 :=
  ⟨⟨by decide, by decide⟩,
   (c8_rsi_total_and_neutral ([1, 2, 3] : List ℚ) 14).2 1 (by decide) (Or.inl (by decide))⟩

/-- Claim C6 counterexample: the regime filter is NOT on by default.  The
config default is `os.getenv("USE_REGIME_FILTER", "false")`, which parses
to `False`, and the strategy the runtime builds from the default config
therefore has the filter disabled. -/
theorem c6_regime_default_counterexample :
    USE_REGIME_FILTER = false ∧ (make_strategy defaultConfig).use_regime_filter = false :=
  ⟨by decide, by decide⟩

/-- Claim C6 amended: the regime filter is OFF by default
(`USE_REGIME_FILTER` env default is the string "false"); when it is
enabled: if the 5m direction by EMA9-vs-EMA50 disagrees with the 30m
direction, the decision is flat with the "mixed regime" reason regardless
of the PAMM score, and even when the two timeframes agree, a
PAMM-derived direction differing from the regime direction also yields
flat. -/
theorem c6_regime_filter_amended (strat : Strategy) (f1 f5 f15 f30 : List Row)
    (hen : strat.use_regime_filter = true)
    (h1 : 50 ≤ f1.length) (h5 : 50 ≤ f5.length)
    (h15 : 50 ≤ f15.length) (h30 : 50 ≤ f30.length) :
    (((lastRow f5).ema50 < (lastRow f5).ema9 ↔
        ¬((lastRow f30).ema50 < (lastRow f30).ema9)) →
      strategyDecide strat f1 f5 f15 f30 = ⟨.flat, .mixedRegime⟩) ∧
    (((lastRow f5).ema50 < (lastRow f5).ema9 ↔
        (lastRow f30).ema50 < (lastRow f30).ema9) →
      (score_pamm (lastRow f5) (lastRow f1) (lastRow f15)
          (lastRow f30)).2 ≠
        (if (lastRow f5).ema50 < (lastRow f5).ema9 then 1 else -1) →
      strategyDecide strat f1 f5 f15 f30 = ⟨.flat, .pammConflictsRegime⟩) := by
  have hlen : ¬(f1.length < 50 ∨ f5.length < 50 ∨ f15.length < 50 ∨ f30.length < 50) := by
    omega
  have hlen2 : ¬(f5.length < 50 ∨ f30.length < 50) := by omega
  constructor
  · intro hdis
    have hreg : check_regime_filter strat f5 f30 = (false, 0, .mixedRegime) := by
      unfold check_regime_filter
      rw [hen]
      by_cases hc : (lastRow f5).ema50 < (lastRow f5).ema9
      · have hc30 := hdis.mp hc
        simp [hlen2, hc, hc30]
      · have hc30 : (lastRow f30).ema50 < (lastRow f30).ema9 := by
          by_contra hcon
          exact hc (hdis.mpr hcon)
        simp [hlen2, hc, hc30]
    unfold strategyDecide
    rw [if_neg hlen]
    simp only [hreg]
    norm_num
  · intro hagree hconf
    set dirR : Int :=
      (if (lastRow f5).ema50 < (lastRow f5).ema9 then 1 else -1) with hdirR
    have hreg : check_regime_filter strat f5 f30 = (true, dirR, .regimeAligned dirR) := by
      unfold check_regime_filter
      rw [hen]
      by_cases hc : (lastRow f5).ema50 < (lastRow f5).ema9
      · have hc30 := hagree.mp hc
        simp [hlen2, hc, hc30, hdirR]
      · have hc30 : ¬(lastRow f30).ema50 < (lastRow f30).ema9 := fun h =>
          hc (hagree.mpr h)
        simp [hlen2, hc, hc30, hdirR]
    have hne : dirR ≠ 0 := by
      rw [hdirR]
      split <;> decide
    unfold strategyDecide
    rw [if_neg hlen]
    simp only [hreg]
    simp [hen, hne, hconf]

/-- Frames for the mixed-regime branch: 5m up, 30m down. -/
def c6_f5up : List Row := List.replicate 50 { ema9 := 2, ema50 := 1 }

def c6_f30down : List Row := List.replicate 50 { ema9 := 1, ema50 := 2 }

/-- 5m frame whose regime direction is up but whose PAMM (EMA9/EMA21)
direction is down. -/
def c6_f5conflict : List Row := List.replicate 50 { ema9 := 2, ema21 := 3, ema50 := 1 }

def c6_f30up : List Row := List.replicate 50 { ema9 := 2, ema50 := 1 }

def c6_strat : Strategy := { pamm_min := 60, pamm_max := 130 }

theorem c6_regime_filter_amended_witness :
    strategyDecide c6_strat c6_f5up c6_f5up c6_f5up c6_f30down = ⟨.flat, .mixedRegime⟩ ∧
    strategyDecide c6_strat c6_f5conflict c6_f5conflict c6_f5conflict c6_f30up =
      ⟨.flat, .pammConflictsRegime⟩ :=
  ⟨(c6_regime_filter_amended c6_strat c6_f5up c6_f5up c6_f5up c6_f30down rfl
      (by decide) (by decide) (by decide) (by decide)).1 (by decide),
   (c6_regime_filter_amended c6_strat c6_f5conflict c6_f5conflict c6_f5conflict c6_f30up rfl
      (by decide) (by decide) (by decide) (by decide)).2 (by decide) (by decide)⟩

/-- State whose stored UTC day (0) and risk counters simulate yesterday's
session. -/
def c9_state : BotState :=
  { daily_realized_pnl_by_machine := [("m", -3)]
    consecutive_losses_by_machine := [("m", 2)]
    kill_switch_triggered_by_machine := [("m", true)]
    current_day_utc := 0 }

/-- Claim C9 counterexample: `StateStore.get` is a read access to the
position/risk store, yet on a later UTC day (day 1 against stored day 0)
it serves the state without resetting any per-machine counter — it never
calls `_day_rollover_if_needed`. -/
theorem c9_rollover_counterexample :
    (1 : Int) ≠ c9_state.current_day_utc ∧
    store_get c9_state = c9_state ∧
    (store_get c9_state).daily_realized_pnl_by_machine = [("m", -3)] ∧
    (store_get c9_state).consecutive_losses_by_machine = [("m", 2)] ∧
    (store_get c9_state).kill_switch_triggered_by_machine = [("m", true)] :=
  ⟨by decide, rfl, rfl, rfl, rfl⟩

/-- Claim C9 amended: every per-machine position/risk accessor of the
store (`get_position`, `set_position`, `add_realized_pnl`,
`get_realized_pnl`, `is_kill_triggered`, `increment_consecutive_losses`,
`get_consecutive_losses`, ...) performed on a UTC day later than the
stored day first resets, for every machine, the daily realized P&L, the
consecutive-loss counter and the kill-triggered flag to their empty
defaults before serving the access; the whole-state snapshot read
`StateStore.get` (and `set_mode`/`set_kill`/`set_decision`/`heartbeat`)
does not. -/
theorem c9_rollover_amended (st : BotState) (today : Int) (m sym : String)
    (q : PositionState) (v : ℚ) (h : today ≠ st.current_day_utc) :
    (store_get_realized_pnl st m today).1 = 0 ∧
    (store_get_consecutive_losses st m today).1 = 0 ∧
    (store_is_kill_triggered st m today).1 = false ∧
    ((store_get_position st m sym today).2.daily_realized_pnl_by_machine = [] ∧
     (store_get_position st m sym today).2.consecutive_losses_by_machine = [] ∧
     (store_get_position st m sym today).2.kill_switch_triggered_by_machine = [] ∧
     (store_get_position st m sym today).2.current_day_utc = today) ∧
    ((store_set_position st m sym q today).daily_realized_pnl_by_machine = [] ∧
     (store_set_position st m sym q today).consecutive_losses_by_machine = [] ∧
     (store_set_position st m sym q today).kill_switch_triggered_by_machine = []) ∧
    (store_add_realized_pnl st m v today).daily_realized_pnl_by_machine = [(m, v)] ∧
    (store_increment_consecutive_losses st m today).consecutive_losses_by_machine =
      [(m, 1)] := by
  refine ⟨?_, ?_, ?_, ?_, ?_, ?_, ?_⟩
  · simp [store_get_realized_pnl, day_rollover_if_needed, h, lookupD, lookup]
  · simp [store_get_consecutive_losses, day_rollover_if_needed, h, lookupD, lookup]
  · simp [store_is_kill_triggered, day_rollover_if_needed, h, lookupD, lookup]
  · rcases hl : lookup (day_rollover_if_needed today st).positions (posKey m sym) with _ | p <;>
      simp [store_get_position, day_rollover_if_needed, h, hl] <;>
      simp [day_rollover_if_needed, h] at hl ⊢ <;>
      simp [hl]
  · simp [store_set_position, day_rollover_if_needed, h]
  · simp [store_add_realized_pnl, day_rollover_if_needed, h, lookupD, lookup, insertKV,
      eraseKey]
  · simp [store_increment_consecutive_losses, day_rollover_if_needed, h, lookupD, lookup,
      insertKV, eraseKey]

theorem c9_rollover_amended_witness :
    ((1 : Int) ≠ c9_state.current_day_utc) ∧
    (store_get_realized_pnl c9_state "m" 1).1 = 0 ∧
    (store_get_consecutive_losses c9_state "m" 1).1 = 0 ∧
    (store_is_kill_triggered c9_state "m" 1).1 = false :=
  ⟨by decide,
   (c9_rollover_amended c9_state 1 "m" "MBT" defaultPos 0 (by decide)).1,
   (c9_rollover_amended c9_state 1 "m" "MBT" defaultPos 0 (by decide)).2.1,
   (c9_rollover_amended c9_state 1 "m" "MBT" defaultPos 0 (by decide)).2.2.1⟩

/-- Open long position with entry 1000 and the initial 50-point stop
(950), as the entry flow of `decide_with_runtime` would create it. -/
def c1_posL : PositionState :=
  { side := some Side.long, entry_price := 1000, stop_price := 950, qty := 1,
    openFlag := true }

/-- Open short position with entry 1000 and the initial 50-point stop
(1050). -/
def c1_posS : PositionState :=
  { side := some Side.short, entry_price := 1000, stop_price := 1050, qty := 1,
    openFlag := true }

/-- Claim C1 counterexample: for the open long with entry 1000 at price
1160 (profit 160 ∈ [150,200)), `_calc_trailing_stop` returns 1060 — it
trails 100 points behind the current price — and not the claimed
entry+50 = 1050. -/
theorem c1_trailing_ladder_counterexample :
    (calc_trailing_stop defaultConfig c1_posL 1160).1 = some 1060 ∧
    (calc_trailing_stop defaultConfig c1_posL 1160).1 ≠ some 1050 := by
  have h : (calc_trailing_stop defaultConfig c1_posL 1160).1 = some 1060 := by
    norm_num [calc_trailing_stop, c1_posL, pnl_points, position_dir, defaultConfig]
  refine ⟨h, ?_⟩
  rw [h]
  norm_num

/-- Claim C1 amended: for an open long position with entry price 1000
(initial stop 950), the trailing-ladder stop computed from current price
`p` is: no update when profit `p-1000 < 150`; stop = `p-100` (trailing
100 points behind price; 1060 at p=1160) when profit is in `[150, 300)`;
stop = `p-150` (1250 at p=1400) when profit ≥ 300, up to the
2000-point max-single-update clamp; symmetrically for shorts.  (The code
trails behind the current price in every tier; only at the exact tier
boundaries does that coincide with the claimed entry+50 / entry+100
locks.) -/
theorem c1_trailing_ladder_amended (p : ℚ) :
    ((p - 1000 < 150 → (calc_trailing_stop defaultConfig c1_posL p).1 = none) ∧
     (150 ≤ p - 1000 → p - 1000 < 300 →
       (calc_trailing_stop defaultConfig c1_posL p).1 = some (p - 100)) ∧
     (300 ≤ p - 1000 → p ≤ 3100 →
       (calc_trailing_stop defaultConfig c1_posL p).1 = some (p - 150))) ∧
    ((1000 - p < 150 → (calc_trailing_stop defaultConfig c1_posS p).1 = none) ∧
     (150 ≤ 1000 - p → 1000 - p < 300 →
       (calc_trailing_stop defaultConfig c1_posS p).1 = some (p + 100)) ∧
     (300 ≤ 1000 - p → -1100 ≤ p →
       (calc_trailing_stop defaultConfig c1_posS p).1 = some (p + 150))) := by
  have hpnlL : pnl_points c1_posL p = p - 1000 := by
    simp [pnl_points, position_dir, c1_posL]
  have hpnlS : pnl_points c1_posS p = 1000 - p := by
    simp [pnl_points, position_dir, c1_posS]
  have hdL : position_dir c1_posL = 1 := rfl
  have hdS : position_dir c1_posS = -1 := rfl
  have hspL : c1_posL.stop_price = (950 : ℚ) := rfl
  have hspS : c1_posS.stop_price = (1050 : ℚ) := rfl
  refine ⟨⟨?_, ?_, ?_⟩, ⟨?_, ?_, ?_⟩⟩
  · intro h
    simp only [calc_trailing_stop, hpnlL, if_pos h]
  · intro h1 h2
    have hmax : max (p - 100) (950 : ℚ) = p - 100 := max_eq_left (by linarith)
    have habs : |p - 100 - (950 : ℚ)| = p - 100 - 950 := abs_of_nonneg (by linarith)
    rcases lt_or_le (p - 1000) 200 with hmid | hmid
    · simp only [calc_trailing_stop, hpnlL, hdL, hspL,
        if_neg (show ¬(p - 1000 < 150) by linarith),
        if_pos (show 150 ≤ p - 1000 ∧ p - 1000 < 200 from ⟨h1, hmid⟩)]
      norm_num [hmax, habs, defaultConfig]
      rw [if_neg (show ¬(p - 100 - 950 < (1:ℚ) / 4) by linarith),
        if_neg (show ¬((2000:ℚ) < p - 100 - 950) by linarith)]
    · simp only [calc_trailing_stop, hpnlL, hdL, hspL,
        if_neg (show ¬(p - 1000 < 150) by linarith),
        if_neg (show ¬(150 ≤ p - 1000 ∧ p - 1000 < 200) from fun hc =>
          absurd hc.2 (by linarith)),
        if_pos (show 200 ≤ p - 1000 ∧ p - 1000 < 300 from ⟨hmid, h2⟩)]
      norm_num [hmax, habs, defaultConfig]
      rw [if_neg (show ¬(p - 100 - 950 < (1:ℚ) / 4) by linarith),
        if_neg (show ¬((2000:ℚ) < p - 100 - 950) by linarith)]
  · intro h1 h2
    have hmax : max (p - 150) (950 : ℚ) = p - 150 := max_eq_left (by linarith)
    have habs : |p - 150 - (950 : ℚ)| = p - 150 - 950 := abs_of_nonneg (by linarith)
    simp only [calc_trailing_stop, hpnlL, hdL, hspL,
      if_neg (show ¬(p - 1000 < 150) by linarith),
      if_neg (show ¬(150 ≤ p - 1000 ∧ p - 1000 < 200) from fun hc =>
        absurd hc.2 (by linarith)),
      if_neg (show ¬(200 ≤ p - 1000 ∧ p - 1000 < 300) from fun hc =>
        absurd hc.2 (by linarith))]
    norm_num [hmax, habs, defaultConfig]
    rw [if_neg (show ¬(p - 150 - 950 < (1:ℚ) / 4) by linarith),
      if_neg (show ¬((2000:ℚ) < p - 150 - 950) by linarith)]
  · intro h
    simp only [calc_trailing_stop, hpnlS, if_pos h]
  · intro h1 h2
    have hmin : min (p + 100) (1050 : ℚ) = p + 100 := min_eq_left (by linarith)
    have habs : |p + 100 - (1050 : ℚ)| = -(p + 100 - 1050) := abs_of_nonpos (by linarith)
    rcases lt_or_le (1000 - p) 200 with hmid | hmid
    · simp only [calc_trailing_stop, hpnlS, hdS, hspS,
        if_neg (show ¬(1000 - p < 150) by linarith),
        if_pos (show 150 ≤ 1000 - p ∧ 1000 - p < 200 from ⟨h1, hmid⟩)]
      norm_num [hmin, habs, defaultConfig]
      rw [if_neg (show ¬(1050 - (p + 100) < (1:ℚ) / 4) by linarith),
        if_neg (show ¬((2000:ℚ) < 1050 - (p + 100)) by linarith)]
    · simp only [calc_trailing_stop, hpnlS, hdS, hspS,
        if_neg (show ¬(1000 - p < 150) by linarith),
        if_neg (show ¬(150 ≤ 1000 - p ∧ 1000 - p < 200) from fun hc =>
          absurd hc.2 (by linarith)),
        if_pos (show 200 ≤ 1000 - p ∧ 1000 - p < 300 from ⟨hmid, h2⟩)]
      norm_num [hmin, habs, defaultConfig]
      rw [if_neg (show ¬(1050 - (p + 100) < (1:ℚ) / 4) by linarith),
        if_neg (show ¬((2000:ℚ) < 1050 - (p + 100)) by linarith)]
  · intro h1 h2
    have hmin : min (p + 150) (1050 : ℚ) = p + 150 := min_eq_left (by linarith)
    have habs : |p + 150 - (1050 : ℚ)| = -(p + 150 - 1050) := abs_of_nonpos (by linarith)
    simp only [calc_trailing_stop, hpnlS, hdS, hspS,
      if_neg (show ¬(1000 - p < 150) by linarith),
      if_neg (show ¬(150 ≤ 1000 - p ∧ 1000 - p < 200) from fun hc =>
        absurd hc.2 (by linarith)),
      if_neg (show ¬(200 ≤ 1000 - p ∧ 1000 - p < 300) from fun hc =>
        absurd hc.2 (by linarith))]
    norm_num [hmin, habs, defaultConfig]
    rw [if_neg (show ¬(1050 - (p + 150) < (1:ℚ) / 4) by linarith),
      if_neg (show ¬((2000:ℚ) < 1050 - (p + 150)) by linarith)]

theorem c1_trailing_ladder_amended_witness :
    (calc_trailing_stop defaultConfig c1_posL 1160).1 = some (1160 - 100) ∧
    (calc_trailing_stop defaultConfig c1_posL 1260).1 = some (1260 - 100) ∧
    (calc_trailing_stop defaultConfig c1_posL 1400).1 = some (1400 - 150) ∧
    (calc_trailing_stop defaultConfig c1_posL 1149).1 = none ∧
    (calc_trailing_stop defaultConfig c1_posS 840).1 = some (840 + 100) ∧
    (calc_trailing_stop defaultConfig c1_posS 600).1 = some (600 + 150) :=
  ⟨(c1_trailing_ladder_amended 1160).1.2.1 (by norm_num) (by norm_num),
   (c1_trailing_ladder_amended 1260).1.2.1 (by norm_num) (by norm_num),
   (c1_trailing_ladder_amended 1400).1.2.2 (by norm_num) (by norm_num),
   (c1_trailing_ladder_amended 1149).1.1 (by norm_num),
   (c1_trailing_ladder_amended 840).2.2.1 (by norm_num) (by norm_num),
   (c1_trailing_ladder_amended 600).2.2.2 (by norm_num) (by norm_num)⟩

/-- State with an open long (entry 1000, stop 999, qty 1/2) for machine
"m", symbol "MBT".  The small quantity keeps the estimated loss above the
catastrophic -$5 floor, so the stop-hit rule (not the catastrophic rule)
fires when the price crosses the stop. -/
def c2_state : BotState :=
  { positions := [(posKey "m" "MBT",
      { side := some Side.long, entry_price := 1000, stop_price := 999, qty := 1 / 2,
        openFlag := true })] }

/-- Configuration with `COOLDOWN_SECONDS=60` (the claim's scenario; the
env default is 0). -/
def c2_cfg : Config := { COOLDOWN_SECONDS := 60 }

/-- Frame inputs at price 998.5 (below the stored stop 999). -/
def c2_fi : FrameInputs :=
  { sufficient := true, price := 1997 / 2, sigSide := .flat, sigReason := .mixedRegime,
    pamm_now := 95, current_dir := 1 }

/-- Frame inputs of the follow-up poll 30 s later; the strategy signal is
flat with a recognisable reason, so a fresh entry evaluation is visible
in the decision. -/
def c2_fi2 : FrameInputs :=
  { sufficient := true, price := 1997 / 2, sigSide := .flat, sigReason := .mixedRegime,
    pamm_now := 95, current_dir := 1 }

/-- The stop-hit poll at time T = 1000 s. -/
def c2_first : RuntimeDecision × BotState :=
  decide_with_runtime c2_cfg c2_state "m" "MBT" c2_fi 1000 0

/-- The follow-up poll at T+30 s on the resulting state. -/
def c2_second : RuntimeDecision × BotState :=
  decide_with_runtime c2_cfg c2_first.2 "m" "MBT" c2_fi2 1030 0

/-- Claim C2 (code bug): the stop-hit cycle force-closes the position but
never records the stop-loss timestamp (`last_sl_time_utc` stays `none`;
the branch's comment defers it to fill confirmation, which never sets it
either), so the poll 30 s later — with `COOLDOWN_SECONDS=60` — is NOT a
cooldown FLAT with remaining≈30: it runs a fresh entry evaluation and
returns the strategy's own flat reason. -/
theorem c2_stop_hit_cooldown_bug :
    c2_first.1 = ⟨.FLAT, 0, .stopHitRender (1997 / 2) 999⟩ ∧
    (storedPos c2_first.2 "m" "MBT").openFlag = false ∧
    (storedPos c2_first.2 "m" "MBT").last_sl_time_utc = none ∧
    c2_second.1 = ⟨.FLAT, 0, .mixedRegime⟩ := by
  have hfirst : c2_first =
      (⟨.FLAT, 0, .stopHitRender (1997 / 2) 999⟩,
       { c2_state with positions := [(posKey "m" "MBT",
           { side := some Side.long, entry_price := 1000, stop_price := 999, qty := 1 / 2,
             openFlag := false })] }) := by
    norm_num [c2_first, c2_state, c2_cfg, c2_fi, decide_with_runtime, manage_open,
      store_get_position, store_get_realized_pnl, store_get_consecutive_losses,
      store_is_kill_triggered, store_set_kill_triggered, store_set_position,
      day_rollover_if_needed, lookup, lookupD, insertKV, eraseKey, pnl_points,
      position_dir, calc_trailing_stop, parse_bool_env]
  refine ⟨by rw [hfirst], ?_, ?_, ?_⟩
  · rw [hfirst]
    norm_num [storedPos, lookupD, lookup, c2_state]
  · rw [hfirst]
    norm_num [storedPos, lookupD, lookup, c2_state]
  · rw [c2_second, hfirst]
    norm_num [c2_state, c2_cfg, c2_fi2, decide_with_runtime, store_get_position,
      store_get_realized_pnl, store_get_consecutive_losses, store_is_kill_triggered,
      store_set_kill_triggered, day_rollover_if_needed, lookup, lookupD, insertKV,
      eraseKey, parse_bool_env]

/-- State with an open long position (entry 1000, qty 1) and empty risk
counters, for the `/fills` close scenario. -/
def c3_state : BotState :=
  { positions := [(posKey "m" "MBT",
      { side := some Side.long, entry_price := 1000, stop_price := 950, qty := 1,
        openFlag := true })] }

/-- The state after a SELL fill at 990 against the open long. -/
def c3_after : BotState := fills c3_state "m" "MBT" .SELL 1 990 5000 0

/-- Claim C3 (code bug): a fill opposite to the open position closes it
(open=false, exit price/time recorded) but, contrary to the claim and to
the design the code's own comments describe ("let fill confirmation
handle it"; the auto kill switch "requires fills"), it computes no
realized P&L into the daily counter, neither increments nor resets the
consecutive-loss counter, and starts no cooldown (`last_sl_time_utc`
stays `none`): `add_realized_pnl` and `increment_consecutive_losses` have
no caller anywhere in the repository. -/
theorem c3_fill_close_bookkeeping_bug :
    storedPos c3_after "m" "MBT" =
      { side := some Side.long, entry_price := 1000, stop_price := 950, qty := 1,
        openFlag := false, exit_price := some 990, exit_time_utc := some 5000 } ∧
    c3_after.daily_realized_pnl_by_machine = [] ∧
    c3_after.consecutive_losses_by_machine = [] ∧
    (storedPos c3_after "m" "MBT").last_sl_time_utc = none := by
  have hafter : c3_after =
      { c3_state with positions := [(posKey "m" "MBT",
          { side := some Side.long, entry_price := 1000, stop_price := 950, qty := 1,
            openFlag := false, exit_price := some 990, exit_time_utc := some 5000 })] } := by
    norm_num [c3_after, c3_state, fills, store_get_position, store_set_position,
      day_rollover_if_needed, lookup, lookupD, insertKV, eraseKey]
    decide
  rw [hafter]
  refine ⟨?_, rfl, rfl, ?_⟩ <;> norm_num [storedPos, lookupD, lookup, c3_state]

/-- The trailing-stop calculator only ever returns ladder/no-trail
reasons, never the catastrophic-loss reason. -/
theorem calc_trailing_stop_reason_shape (cfg : Config) (pos : PositionState) (price : ℚ) :
    ∀ q : ℚ, (calc_trailing_stop cfg pos price).2 ≠ Reason.killSingleLoss q := by
  simp only [calc_trailing_stop]
  split_ifs <;> simp

/-- When the estimated P&L is above the -$5 floor, the open-position
management block neither trips the kill flag nor reports the
catastrophic-loss reason, whatever the other inputs. -/
theorem manage_open_not_catastrophic (cfg : Config) (pos : PositionState)
    (price pamm_now : ℚ) (current_dir : Int) (now : ℚ)
    (h : ¬(pnl_points pos price * cfg.POINT_VALUE_USD *
        (if pos.qty = 0 then 1 else pos.qty) ≤ -5)) :
    (manage_open cfg pos price pamm_now current_dir now).2.2 = false ∧
    ∀ q : ℚ, (manage_open cfg pos price pamm_now current_dir now).1.reason ≠
      Reason.killSingleLoss q := by
  rcases htr : (calc_trailing_stop cfg pos price).1 with _ | ns <;>
    simp only [manage_open, if_neg h, htr] <;>
    split_ifs <;>
    simp [calc_trailing_stop_reason_shape]

/-- Gate-passing reduction: with the default configuration, a stored open
position, matching day, sufficient data, and none of the kill-switch /
cooldown gates active, one poll cycle is exactly the open-position
management block followed by its state writes. -/
theorem decide_with_runtime_open_form (st : BotState) (m sym : String) (fi : FrameInputs)
    (now : ℚ) (today : Int) (pos : PositionState)
    (hday : today = st.current_day_utc)
    (hsuff : fi.sufficient = true)
    (hks : st.kill_switch = false)
    (hl : lookup st.positions (posKey m sym) = some pos)
    (hopen : pos.openFlag = true)
    (hkt : lookupD st.kill_switch_triggered_by_machine m false = false)
    (hcl : lookupD st.consecutive_losses_by_machine m 0 < 3)
    (hdl : -(15 / 2 : ℚ) < lookupD st.daily_realized_pnl_by_machine m 0) :
    decide_with_runtime defaultConfig st m sym fi now today =
      ((manage_open defaultConfig pos fi.price fi.pamm_now fi.current_dir now).1,
       (let stW :=
          match (manage_open defaultConfig pos fi.price fi.pamm_now fi.current_dir now).2.1
            with
          | some p => { st with positions := insertKV st.positions (posKey m sym) p }
          | none => st
        if (manage_open defaultConfig pos fi.price fi.pamm_now fi.current_dir now).2.2 =
            true then
          { stW with kill_switch_triggered_by_machine :=
              insertKV stW.kill_switch_triggered_by_machine m true }
        else stW)) := by
  have hroll : day_rollover_if_needed today st = st := by
    simp [day_rollover_if_needed, hday]
  have hen : defaultConfig.RUNTIME_MANAGER_ENABLED = true := rfl
  have hak : defaultConfig.ENABLE_AUTO_KILL_SWITCH = true := rfl
  have hcool : defaultConfig.COOLDOWN_SECONDS = 0 := rfl
  have h1 : ¬(lookupD st.daily_realized_pnl_by_machine m 0 ≤
      -|defaultConfig.MAX_DAILY_LOSS_USD|) := by
    have habs : |defaultConfig.MAX_DAILY_LOSS_USD| = 15 / 2 := by norm_num [defaultConfig]
    rw [habs]; linarith
  have h2 : ¬(3 ≤ lookupD st.consecutive_losses_by_machine m 0) := by omega
  have hday2 : st.current_day_utc = today := hday.symm
  have hroll2 : ∀ s : BotState, s.current_day_utc = today → day_rollover_if_needed today s = s := by
    intro s hs
    simp [day_rollover_if_needed, hs]
  rcases hmo : (manage_open defaultConfig pos fi.price fi.pamm_now fi.current_dir now).2.1
    with _ | p <;>
    simp [decide_with_runtime, hen, hsuff, store_get_position, hroll, hl,
      store_get_realized_pnl, store_get_consecutive_losses, store_is_kill_triggered,
      store_set_kill_triggered, store_set_position, hak, hcool, hopen, hks, hkt, h1, h2,
      hmo, hroll2, hday2]

/-- Claim C5: with point value $5/pt (default config) and quantity 1, an
open position whose estimated P&L is -1.0 points (-$5) is force-closed by
the decision cycle with the per-machine kill flag set — and this holds
for every price/PAMM/direction input reaching the open-position rules, so
the check has highest priority among them; an open position at -0.9
points (-$4.5) is not closed by this rule: the kill flag stays unset and
the catastrophic-loss reason is never reported. -/
theorem c5_catastrophic_loss (st : BotState) (m sym : String) (fi : FrameInputs)
    (now : ℚ) (today : Int)
    (hday : today = st.current_day_utc)
    (hsuff : fi.sufficient = true)
    (hks : st.kill_switch = false)
    (hkt : lookupD st.kill_switch_triggered_by_machine m false = false)
    (hcl : lookupD st.consecutive_losses_by_machine m 0 < 3)
    (hdl : -(15 / 2 : ℚ) < lookupD st.daily_realized_pnl_by_machine m 0)
    (hopen : (storedPos st m sym).openFlag = true)
    (hqty : (storedPos st m sym).qty = 1) :
    (pnl_points (storedPos st m sym) fi.price = -1 →
      (decide_with_runtime defaultConfig st m sym fi now today).1 =
        ⟨.FLAT, 0, .killSingleLoss (-5)⟩ ∧
      (storedPos (decide_with_runtime defaultConfig st m sym fi now today).2 m sym).openFlag
        = false ∧
      lookupD (decide_with_runtime defaultConfig st m sym fi now
        today).2.kill_switch_triggered_by_machine m false = true) ∧
    (pnl_points (storedPos st m sym) fi.price = -(9 / 10) →
      lookupD (decide_with_runtime defaultConfig st m sym fi now
        today).2.kill_switch_triggered_by_machine m false = false ∧
      ∀ q : ℚ, (decide_with_runtime defaultConfig st m sym fi now today).1.reason ≠
        .killSingleLoss q) := by
  rcases hlk : lookup st.positions (posKey m sym) with _ | pos
  · exfalso
    simp [storedPos, lookupD, hlk, defaultPos] at hopen
  have hpos : storedPos st m sym = pos := by simp [storedPos, lookupD, hlk]
  rw [hpos] at hopen hqty
  have hred := decide_with_runtime_open_form st m sym fi now today pos hday hsuff hks hlk
    hopen hkt hcl hdl
  constructor
  · intro hpnl
    rw [hpos] at hpnl
    have hest : pnl_points pos fi.price * defaultConfig.POINT_VALUE_USD *
        (if pos.qty = 0 then 1 else pos.qty) = -5 := by
      rw [hpnl, hqty]
      norm_num [defaultConfig]
    have hmo : manage_open defaultConfig pos fi.price fi.pamm_now fi.current_dir now =
        (⟨.FLAT, 0, .killSingleLoss (-5)⟩, some { pos with openFlag := false }, true) := by
      simp only [manage_open, hest]
      norm_num
    rw [hred, hmo]
    refine ⟨rfl, ?_, ?_⟩
    · simp [storedPos, lookupD, insertKV, lookup]
    · simp [lookupD, insertKV, lookup]
  · intro hpnl
    rw [hpos] at hpnl
    have hne : ¬(pnl_points pos fi.price * defaultConfig.POINT_VALUE_USD *
        (if pos.qty = 0 then 1 else pos.qty) ≤ -5) := by
      rw [hpnl, hqty]
      norm_num [defaultConfig]
    obtain ⟨hkf, hreason⟩ :=
      manage_open_not_catastrophic defaultConfig pos fi.price fi.pamm_now fi.current_dir
        now hne
    rw [hred]
    constructor
    · rcases hmo : (manage_open defaultConfig pos fi.price fi.pamm_now fi.current_dir
          now).2.1 with _ | p <;>
        simp [hmo, hkf, lookupD, hkt] <;>
        simpa [lookupD] using hkt
    · intro q
      simpa using hreason q

/-- Open long, entry 1000, qty 1 for the C5 witness. -/
def c5_state : BotState :=
  { positions := [(posKey "m" "MBT",
      { side := some Side.long, entry_price := 1000, stop_price := 950, qty := 1,
        openFlag := true })] }

/-- Price 999: exactly -1.0 points of P&L. -/
def c5_fi1 : FrameInputs :=
  { sufficient := true, price := 999, sigSide := .flat, sigReason := .mixedRegime,
    pamm_now := 95, current_dir := 1 }

/-- Price 999.1: -0.9 points of P&L. -/
def c5_fi2 : FrameInputs :=
  { sufficient := true, price := 9991 / 10, sigSide := .flat, sigReason := .mixedRegime,
    pamm_now := 95, current_dir := 1 }

theorem c5_catastrophic_loss_witness :
    (decide_with_runtime defaultConfig c5_state "m" "MBT" c5_fi1 100 0).1 =
      ⟨.FLAT, 0, .killSingleLoss (-5)⟩ ∧
    lookupD (decide_with_runtime defaultConfig c5_state "m" "MBT" c5_fi1 100
      0).2.kill_switch_triggered_by_machine "m" false = true ∧
    lookupD (decide_with_runtime defaultConfig c5_state "m" "MBT" c5_fi2 100
      0).2.kill_switch_triggered_by_machine "m" false = false :=
  ⟨((c5_catastrophic_loss c5_state "m" "MBT" c5_fi1 100 0 rfl rfl rfl rfl
      (by norm_num [c5_state, lookupD, lookup])
      (by norm_num [c5_state, lookupD, lookup])
      (by norm_num [storedPos, lookupD, lookup, c5_state])
      (by norm_num [storedPos, lookupD, lookup, c5_state])).1
      (by norm_num [storedPos, lookupD, lookup, c5_state, c5_fi1, pnl_points,
        position_dir])).1,
   ((c5_catastrophic_loss c5_state "m" "MBT" c5_fi1 100 0 rfl rfl rfl rfl
      (by norm_num [c5_state, lookupD, lookup])
      (by norm_num [c5_state, lookupD, lookup])
      (by norm_num [storedPos, lookupD, lookup, c5_state])
      (by norm_num [storedPos, lookupD, lookup, c5_state])).1
      (by norm_num [storedPos, lookupD, lookup, c5_state, c5_fi1, pnl_points,
        position_dir])).2.2,
   ((c5_catastrophic_loss c5_state "m" "MBT" c5_fi2 100 0 rfl rfl rfl rfl
      (by norm_num [c5_state, lookupD, lookup])
      (by norm_num [c5_state, lookupD, lookup])
      (by norm_num [storedPos, lookupD, lookup, c5_state])
      (by norm_num [storedPos, lookupD, lookup, c5_state])).2
      (by norm_num [storedPos, lookupD, lookup, c5_state, c5_fi2, pnl_points,
        position_dir])).1⟩

/-- A trailing-stop update accepted by `_calc_trailing_stop` only
tightens risk: for a long it is at least the stored stop, for a short
with a stored (positive) stop it is at most the stored stop. -/
theorem calc_trailing_stop_mono (cfg : Config) (pos : PositionState) (price ns : ℚ)
    (h : (calc_trailing_stop cfg pos price).1 = some ns) :
    (position_dir pos = 1 → pos.stop_price ≤ ns) ∧
    (position_dir pos = -1 → 0 < pos.stop_price → ns ≤ pos.stop_price) := by
  by_cases hpnl : pnl_points pos price < 150
  · simp [calc_trailing_stop, hpnl] at h
  have hpnl' : (150 : ℚ) ≤ pnl_points pos price := le_of_not_lt hpnl
  have hpe : pos.openFlag = true ∧ 0 < pos.entry_price := by
    by_contra hc
    have : pnl_points pos price = 0 := by
      unfold pnl_points
      rw [if_pos]
      by_cases h1 : pos.openFlag = false
      · exact Or.inl h1
      · right
        by_cases h2 : pos.entry_price ≤ 0
        · exact h2
        · exact absurd ⟨by revert h1; simp, by linarith⟩ hc
    rw [this] at hpnl'
    norm_num at hpnl'
  simp only [calc_trailing_stop] at h
  rw [if_neg hpnl] at h
  by_cases hsp : 0 < pos.stop_price
  · constructor
    · intro hd
      rw [hd] at h
      norm_num [hsp] at h
      split_ifs at h <;>
        first
          | exact Option.noConfusion h
          | (rw [Option.some.injEq] at h
             rw [← h]
             exact le_max_right _ _)
    · intro hd hsp2
      rw [hd] at h
      norm_num [hsp] at h
      split_ifs at h <;>
        first
          | exact Option.noConfusion h
          | (rw [Option.some.injEq] at h
             rw [← h]
             exact min_le_right _ _)
  · constructor
    · intro hd
      have hpnleq : pnl_points pos price = price - pos.entry_price := by
        unfold pnl_points
        rw [if_neg (by simp [hpe.1]; linarith [hpe.2]), hd]
        norm_num
      rw [hd] at h
      norm_num [hsp] at h
      have hge : (150 : ℚ) ≤ price - pos.entry_price := by
        rw [← hpnleq]
        exact hpnl'
      have hsp0 : pos.stop_price ≤ 0 := le_of_not_lt hsp
      split_ifs at h <;>
        (norm_num at h
         rw [← h]
         linarith [hpe.2])
    · intro hd hsp2
      exact absurd hsp2 hsp

/-- Every position write of the open-position management block keeps the
side and only tightens the stop. -/
theorem manage_open_write_props (cfg : Config) (pos : PositionState)
    (price pamm_now : ℚ) (current_dir : Int) (now : ℚ) :
    ∀ p, (manage_open cfg pos price pamm_now current_dir now).2.1 = some p →
      p.side = pos.side ∧
      (position_dir pos = 1 → pos.stop_price ≤ p.stop_price) ∧
      (position_dir pos = -1 → 0 < pos.stop_price → p.stop_price ≤ pos.stop_price) := by
  intro p hp
  rcases htr : (calc_trailing_stop cfg pos price).1 with _ | ns <;>
    simp only [manage_open, htr] at hp <;>
    split_ifs at hp <;>
    rw [Option.some.injEq] at hp <;>
    rw [← hp] <;>
    first
      | exact ⟨rfl, fun _ => le_rfl, fun _ _ => le_rfl⟩
      | (obtain ⟨h1, h2⟩ := calc_trailing_stop_mono cfg pos price ns htr
         exact ⟨rfl, fun hd => h1 hd, fun hd hsp => h2 hd hsp⟩)

/-- Day rollover never touches the positions map. -/
theorem day_rollover_positions (today : Int) (st : BotState) :
    (day_rollover_if_needed today st).positions = st.positions := by
  unfold day_rollover_if_needed
  split <;> rfl

/-- Setting the kill flag never touches the positions map. -/
theorem set_kill_positions (st : BotState) (m : String) (b : Bool) (today : Int) :
    (store_set_kill_triggered st m b today).positions = st.positions := by
  simp [store_set_kill_triggered, day_rollover_positions]

/-- One decision cycle on a stored open position preserves its side,
never lowers a long stop (`position_dir = 1`), and never raises a short
stop that is stored (positive). -/
theorem runtime_step_props (cfg : Config) (st : BotState) (m sym : String)
    (fi : FrameInputs) (now : ℚ) (today : Int)
    (hopen : (storedPos st m sym).openFlag = true) :
    (storedPos (decide_with_runtime cfg st m sym fi now today).2 m sym).side =
      (storedPos st m sym).side ∧
    (position_dir (storedPos st m sym) = 1 →
      (storedPos st m sym).stop_price ≤
        (storedPos (decide_with_runtime cfg st m sym fi now today).2 m sym).stop_price) ∧
    (position_dir (storedPos st m sym) = -1 → 0 < (storedPos st m sym).stop_price →
      (storedPos (decide_with_runtime cfg st m sym fi now today).2 m sym).stop_price ≤
        (storedPos st m sym).stop_price) := by
  rcases hlk : lookup st.positions (posKey m sym) with _ | pos
  · exfalso
    simp [storedPos, lookupD, hlk, defaultPos] at hopen
  have hpos : storedPos st m sym = pos := by simp [storedPos, lookupD, hlk]
  rw [hpos] at hopen ⊢
  by_cases hen : cfg.RUNTIME_MANAGER_ENABLED = false
  · simp only [decide_with_runtime, hen, if_true]
    split_ifs <;>
      simp [storedPos, lookupD, hlk]
  · by_cases hsuff : fi.sufficient = false
    · simp only [decide_with_runtime, hen, hsuff]
      simp [storedPos, lookupD, hlk]
    · rcases hsl : pos.last_sl_time_utc with _ | t <;>
        rcases hmo : (manage_open cfg pos fi.price fi.pamm_now fi.current_dir now).2.1
          with _ | p <;>
        simp only [decide_with_runtime, hen, hsuff, store_get_position,
          day_rollover_positions, hlk, hsl, hmo, store_get_realized_pnl,
          store_get_consecutive_losses, store_is_kill_triggered, store_set_kill_triggered,
          store_set_position, hopen] <;>
        split_ifs <;>
        simp [storedPos, lookupD, lookup_insertKV_self, day_rollover_positions,
          set_kill_positions, hlk, hopen, hmo] <;>
        first
          | exact ⟨rfl, fun _ => le_rfl, fun _ _ => le_rfl⟩
          | (obtain ⟨h1, h2, h3⟩ :=
              manage_open_write_props cfg pos fi.price fi.pamm_now fi.current_dir now p hmo
             exact ⟨h1, h2, h3⟩)

/-- Claim C4: for every open position, across any sequence of decision
cycles during which it remains open, the stored stop price of a long
position never decreases and the stored stop price of a short position
(with a stored, positive stop — the code treats stop 0 as "no stop") never
increases: every accepted trailing update only tightens risk. -/
theorem c4_stop_monotone (cfg : Config) (st : BotState) (m sym : String)
    (inputs : List (FrameInputs × ℚ × Int))
    (hopen : ∀ k, k ≤ inputs.length →
      (storedPos (run_cycles cfg m sym st (inputs.take k)) m sym).openFlag = true) :
    ((storedPos st m sym).side = some Side.long →
      (storedPos st m sym).stop_price ≤
        (storedPos (run_cycles cfg m sym st inputs) m sym).stop_price) ∧
    ((storedPos st m sym).side = some Side.short →
      (∀ k, k ≤ inputs.length →
        0 < (storedPos (run_cycles cfg m sym st (inputs.take k)) m sym).stop_price) →
      (storedPos (run_cycles cfg m sym st inputs) m sym).stop_price ≤
        (storedPos st m sym).stop_price) := by
  induction inputs generalizing st with
  | nil =>
    refine ⟨fun _ => ?_, fun _ _ => ?_⟩ <;> simp [run_cycles]
  | cons i rest ih =>
    have h0 : (storedPos st m sym).openFlag = true := by
      simpa [run_cycles] using hopen 0 (by simp)
    obtain ⟨hside, hlongstep, hshortstep⟩ :=
      runtime_step_props cfg st m sym i.1 i.2.1 i.2.2 h0
    have hrun : run_cycles cfg m sym st (i :: rest) =
        run_cycles cfg m sym (decide_with_runtime cfg st m sym i.1 i.2.1 i.2.2).2 rest := by
      simp [run_cycles, runtime_state_step]
    have hopen' : ∀ k, k ≤ rest.length →
        (storedPos (run_cycles cfg m sym
          (decide_with_runtime cfg st m sym i.1 i.2.1 i.2.2).2 (rest.take k)) m sym).openFlag
          = true := by
      intro k hk
      have htk := hopen (k + 1) (by simpa using Nat.succ_le_succ hk)
      simpa [run_cycles, runtime_state_step, List.take_succ_cons] using htk
    obtain ⟨ihl, ihs⟩ := ih (decide_with_runtime cfg st m sym i.1 i.2.1 i.2.2).2 hopen'
    rw [hrun]
    constructor
    · intro hlong
      have hd : position_dir (storedPos st m sym) = 1 := by
        simp [position_dir, hlong]
      have hside' :
          (storedPos (decide_with_runtime cfg st m sym i.1 i.2.1 i.2.2).2 m sym).side =
            some Side.long := by
        rw [hside, hlong]
      exact le_trans (hlongstep hd) (ihl hside')
    · intro hshort hpos
      have hd : position_dir (storedPos st m sym) = -1 := by
        simp [position_dir, hshort]
      have hsp0 : 0 < (storedPos st m sym).stop_price := by
        simpa [run_cycles] using hpos 0 (by simp)
      have hside' :
          (storedPos (decide_with_runtime cfg st m sym i.1 i.2.1 i.2.2).2 m sym).side =
            some Side.short := by
        rw [hside, hshort]
      have hpos' : ∀ k, k ≤ rest.length →
          0 < (storedPos (run_cycles cfg m sym
            (decide_with_runtime cfg st m sym i.1 i.2.1 i.2.2).2 (rest.take k)) m
            sym).stop_price := by
        intro k hk
        have htk := hpos (k + 1) (by simpa using Nat.succ_le_succ hk)
        simpa [run_cycles, runtime_state_step, List.take_succ_cons] using htk
      exact le_trans (ihs hside' hpos') (hshortstep hd hsp0)

/-- Open long, entry 1000, stop 950 for the C4 witness run. -/
def c4_state : BotState :=
  { positions := [(posKey "m" "MBT",
      { side := some Side.long, entry_price := 1000, stop_price := 950, qty := 1,
        openFlag := true, entry_time_utc := some 0 })] }

/-- The same state after the first witness cycle trails the stop up to
1060. -/
def c4_state1 : BotState :=
  { positions := [(posKey "m" "MBT",
      { side := some Side.long, entry_price := 1000, stop_price := 1060, qty := 1,
        openFlag := true, entry_time_utc := some 0, last_stop_update_utc := some 100 })] }

/-- Two poll cycles: price 1160 (ladder tier L1, trail to 1060), then
price 1130 (profit below 150, hold). -/
def c4_inputs : List (FrameInputs × ℚ × Int) :=
  [({ sufficient := true, price := 1160, sigSide := .flat, sigReason := .mixedRegime,
      pamm_now := 95, current_dir := 1 }, 100, 0),
   ({ sufficient := true, price := 1130, sigSide := .flat, sigReason := .mixedRegime,
      pamm_now := 95, current_dir := 1 }, 400, 0)]

theorem c4_stop_monotone_witness :
    (∀ k, k ≤ c4_inputs.length →
      (storedPos (run_cycles defaultConfig "m" "MBT" c4_state (c4_inputs.take k)) "m"
        "MBT").openFlag = true) ∧
    (storedPos c4_state "m" "MBT").stop_price ≤
      (storedPos (run_cycles defaultConfig "m" "MBT" c4_state c4_inputs) "m"
        "MBT").stop_price := by
  have h1 : run_cycles defaultConfig "m" "MBT" c4_state (c4_inputs.take 1) = c4_state1 := by
    norm_num [run_cycles, runtime_state_step, c4_inputs, c4_state, c4_state1,
      decide_with_runtime, manage_open, store_get_position, store_get_realized_pnl,
      store_get_consecutive_losses, store_is_kill_triggered, store_set_kill_triggered,
      store_set_position, day_rollover_if_needed, lookup, lookupD, insertKV, eraseKey,
      pnl_points, position_dir, calc_trailing_stop, parse_bool_env, defaultConfig]
  have h2 : run_cycles defaultConfig "m" "MBT" c4_state c4_inputs = c4_state1 := by
    norm_num [run_cycles, runtime_state_step, c4_inputs, c4_state, c4_state1,
      decide_with_runtime, manage_open, store_get_position, store_get_realized_pnl,
      store_get_consecutive_losses, store_is_kill_triggered, store_set_kill_triggered,
      store_set_position, day_rollover_if_needed, lookup, lookupD, insertKV, eraseKey,
      pnl_points, position_dir, calc_trailing_stop, parse_bool_env, defaultConfig]
  have hopen : ∀ k, k ≤ c4_inputs.length →
      (storedPos (run_cycles defaultConfig "m" "MBT" c4_state (c4_inputs.take k)) "m"
        "MBT").openFlag = true := by
    intro k hk
    have hlen : c4_inputs.length = 2 := by norm_num [c4_inputs]
    rw [hlen] at hk
    interval_cases k
    · norm_num [run_cycles, c4_inputs, c4_state, storedPos, lookupD, lookup]
    · rw [h1]
      norm_num [c4_state1, storedPos, lookupD, lookup]
    · have ht : c4_inputs.take 2 = c4_inputs := by norm_num [c4_inputs]
      rw [ht, h2]
      norm_num [c4_state1, storedPos, lookupD, lookup]
  exact ⟨hopen,
    (c4_stop_monotone defaultConfig c4_state "m" "MBT" c4_inputs hopen).1
      (by norm_num [c4_state, storedPos, lookupD, lookup])⟩

end NinjaTrader
